import Mathlib

/-!
Verification of the stackblaze/server page-server repository.

The development shallowly embeds the two executable source files:
* the Go HTTP page server (`handleGetPage`, `handleStreamWAL`, `handlePing`),
  whose state is an in-memory page map keyed by "space:page" plus a list of
  received WAL records, and
* the MariaDB/InnoDB C++ client (`page_server_client.cc`): the base64 codec,
  the bounded-retry `http_request` loop, the `rpc_get_page` response handling,
  and the `PageServerClient` lifecycle (`init`, `is_enabled`, `get_page`,
  `stream_wal`).

Bytes are modelled as `Nat` (values stay below 256 where produced by the
code), machine integers as `Nat` since no arithmetic overflows occur in the
modelled paths, and network transport as explicit data: an environment
function giving the outcome of each connection attempt, and the parsed JSON
fields of a server response.
-/

/-- Result codes of the client, from the InnoDB `dberr_t` values used in
`page_server_client.cc` (only `DB_SUCCESS` and `DB_ERROR` occur there). -/
inductive dberr where
  | DB_SUCCESS
  | DB_ERROR
deriving DecidableEq, Repr

/-! ## Client-side base64 codec (`page_server_client.cc` lines 69-118) -/

/-- The encoding table `base64_chars`. -/
def base64_chars : List Char :=
  "ABCDEFGHIJKLMNOPQRSTUVWXYZabcdefghijklmnopqrstuvwxyz0123456789+/".toList

/-- `base64_encode(data, len, out, out_len)` for a sufficiently large output
buffer: the loop consumes three input bytes per iteration, emitting four
characters; when fewer than three bytes remain the missing third and fourth
characters are replaced by `=` exactly as the two conditionals
`(i + 1 < len)` and `(i + 2 < len)` do. -/
def base64_encode : List Nat → List Char
  | [] => []
  | [b0] =>
      let b := b0 <<< 16
      [base64_chars.getD ((b >>> 18) &&& 63) 'A',
       base64_chars.getD ((b >>> 12) &&& 63) 'A',
       '=', '=']
  | [b0, b1] =>
      let b := (b0 <<< 16) ||| (b1 <<< 8)
      [base64_chars.getD ((b >>> 18) &&& 63) 'A',
       base64_chars.getD ((b >>> 12) &&& 63) 'A',
       base64_chars.getD ((b >>> 6) &&& 63) 'A',
       '=']
  | b0 :: b1 :: b2 :: rest =>
      let b := (b0 <<< 16) ||| (b1 <<< 8) ||| b2
      (base64_chars.getD ((b >>> 18) &&& 63) 'A') ::
      (base64_chars.getD ((b >>> 12) &&& 63) 'A') ::
      (base64_chars.getD ((b >>> 6) &&& 63) 'A') ::
      (base64_chars.getD (b &&& 63) 'A') ::
      base64_encode rest

/-- The character-class lookup inside `base64_decode`: the chain of
range tests giving the 6-bit value of an alphabet character, `none` for a
character the loop skips with `continue`. -/
def b64_index (c : Char) : Option Nat :=
  if 65 ≤ c.toNat ∧ c.toNat ≤ 90 then some (c.toNat - 65)
  else if 97 ≤ c.toNat ∧ c.toNat ≤ 122 then some (c.toNat - 97 + 26)
  else if 48 ≤ c.toNat ∧ c.toNat ≤ 57 then some (c.toNat - 48 + 52)
  else if c = '+' then some 62
  else if c = '/' then some 63
  else none

/-- The body of the `base64_decode` loop, threading the loop variables:
input position `i`, accumulator `val`, padding count `pad`, and the output
written so far (whose length is the C variable `j`, bounded by `out_len`).
A `=` increments `pad` and `continue`s — in particular it skips the
`(i + 1) % 4 == 0` flush check, exactly as in the source. -/
def base64_decode_go : List Char → Nat → Nat → Nat → Nat → List Nat → List Nat
  | [], _, _, _, _, out => out
  | c :: rest, i, val, pad, out_len, out =>
    if out_len ≤ out.length then out
    else if c = '=' then
      base64_decode_go rest (i + 1) val (pad + 1) out_len out
    else
      match b64_index c with
      | none => base64_decode_go rest (i + 1) val pad out_len out
      | some idx =>
        let val2 := (val <<< 6) ||| idx
        if (i + 1) % 4 = 0 then
          let out1 := if out.length < out_len then out ++ [(val2 >>> 16) &&& 255] else out
          let out2 := if out1.length < out_len ∧ pad < 2 then out1 ++ [(val2 >>> 8) &&& 255] else out1
          let out3 := if out2.length < out_len ∧ pad < 1 then out2 ++ [val2 &&& 255] else out2
          base64_decode_go rest (i + 1) 0 pad out_len out3
        else
          base64_decode_go rest (i + 1) val2 pad out_len out

/-- `base64_decode(in, out, out_len)`: returns the bytes written to `out`
(the C function returns their count `j`). -/
def base64_decode (s : List Char) (out_len : Nat) : List Nat :=
  base64_decode_go s 0 0 0 out_len []

/-! ## Server model (Go `main.go`) -/

/-- A stored WAL record (`WALRecord` in the Go server), with `walData`
holding the bytes obtained from the standard base64 decode of the
request's `wal_data` field. -/
structure WALRecord where
  lsn : Nat
  walData : List Nat
  spaceId : Nat
  pageNo : Nat
deriving DecidableEq, Repr

/-- The `PageServer` state: `pages` models the Go map from the key string
`fmt.Sprintf("%d:%d", space, page)` — injective in the `(space, page)`
pair, so keys are modelled as pairs — and `walRecords` the appended slice
of received records. -/
structure PageServer where
  pages : List ((Nat × Nat) × List Nat)
  walRecords : List WALRecord
deriving DecidableEq, Repr

/-- Lookup in the `pages` map (`pageData, exists := s.pages[key]`). -/
def lookupPage : List ((Nat × Nat) × List Nat) → Nat × Nat → Option (List Nat)
  | [], _ => none
  | (k, v) :: rest, key => if k = key then some v else lookupPage rest key

/-- `GetPageRequest` fields. -/
structure GetPageRequest where
  spaceId : Nat
  pageNo : Nat
  lsn : Nat
deriving DecidableEq, Repr

/-- `GetPageResponse` struct fields; `pageData` holds the page bytes (the
wire form is their base64 encoding) and absent/zero-valued fields keep the
Go zero values the struct carries before JSON `omitempty` drops them. -/
structure GetPageResponse where
  status : String
  pageData : List Nat
  pageLSN : Nat
  error : String
deriving DecidableEq, Repr

/-- `handleGetPage` on a well-formed POST request: looks the key up in the
page map under a read lock; a missing key answers status `error` with an
explanatory message and HTTP 404; a present key answers status `success`
with the stored bytes and `PageLSN: req.LSN` (the source comment reads
"In production, return actual page LSN"). The state is returned to make
the absence of mutation provable. -/
def handleGetPage (s : PageServer) (req : GetPageRequest) :
    GetPageResponse × PageServer :=
  match lookupPage s.pages (req.spaceId, req.pageNo) with
  | none =>
      ({ status := "error", pageData := [], pageLSN := 0,
         error := "Page not found" }, s)
  | some pageData =>
      ({ status := "success", pageData := pageData, pageLSN := req.lsn,
         error := "" }, s)

/-- `StreamWALRequest` fields, with `walData` the bytes the Go handler
obtains from the standard-library base64 decode of `wal_data` (the
malformed-base64 branch answers HTTP 400 before any state change and is
not modelled further). -/
structure StreamWALRequest where
  lsn : Nat
  walData : List Nat
  spaceId : Nat
  pageNo : Nat
deriving DecidableEq, Repr

/-- `StreamWALResponse` struct fields. -/
structure StreamWALResponse where
  status : String
  lastAppliedLSN : Nat
deriving DecidableEq, Repr

/-- `handleStreamWAL` on a well-formed POST request with valid base64:
builds a `WALRecord` from the request, appends it to `walRecords`, and
answers status `success` with `LastAppliedLSN: req.LSN`. The source
comment notes that applying the record to pages is what production
"would" do; the handler itself never touches `pages`. -/
def handleStreamWAL (s : PageServer) (req : StreamWALRequest) :
    StreamWALResponse × PageServer :=
  let record : WALRecord :=
    { lsn := req.lsn, walData := req.walData,
      spaceId := req.spaceId, pageNo := req.pageNo }
  ({ status := "success", lastAppliedLSN := req.lsn },
   { s with walRecords := s.walRecords ++ [record] })

/-! ## Client network loop (`http_request`, lines 179-268) -/

/-- What one iteration of the `http_request` retry loop observes from the
network: the connect may fail, the send may fail, the recv may yield
nothing, or a response arrives which either does or does not carry an
`HTTP/1.x 200` status line. -/
inductive AttemptOutcome where
  | connectFail
  | sendFail
  | recvNothing
  | response (has200 : Bool)
deriving DecidableEq, Repr

/-- An attempt yields `DB_SUCCESS` exactly when a response containing an
HTTP 200 status line was read; every other outcome falls into the retry
path of the loop. -/
def attemptSucceeds : AttemptOutcome → Bool
  | .response true => true
  | _ => false

/-- `MAX_RETRIES` from the source: retries beyond the first attempt. -/
def MAX_RETRIES : Nat := 2

/-- The argument of `usleep` before the retry numbered `retry + 1`:
`100000 * (1 << retry)` microseconds. -/
def backoff_delay (retry : Nat) : Nat := 100000 * 2 ^ retry

/-- Observable outcome of one `http_request` call: the returned `dberr_t`,
the number of loop iterations that touched the network, and the list of
backoff delays slept between them. -/
structure HttpRun where
  result : dberr
  attempts : Nat
  delays : List Nat
deriving DecidableEq, Repr

/-- The `for (int retry = 0; retry <= MAX_RETRIES; retry++)` loop of
`http_request`: a successful attempt returns `DB_SUCCESS` at once; a
failed attempt with `retry < MAX_RETRIES` sleeps `backoff_delay retry`
and continues, and with `retry = MAX_RETRIES` returns `DB_ERROR` (the
connect and send failure paths return it directly, the recv and non-200
paths by falling off the loop). The fuel argument is
`MAX_RETRIES + 1 - retry`, the number of iterations left. -/
def http_attempts (env : Nat → AttemptOutcome) : Nat → Nat → HttpRun
  | _, 0 => { result := .DB_ERROR, attempts := 0, delays := [] }
  | retry, fuel + 1 =>
    if attemptSucceeds (env retry) then
      { result := .DB_SUCCESS, attempts := 1, delays := [] }
    else if retry < MAX_RETRIES then
      let r := http_attempts env (retry + 1) fuel
      { result := r.result, attempts := r.attempts + 1,
        delays := backoff_delay retry :: r.delays }
    else
      { result := .DB_ERROR, attempts := 1, delays := [] }

/-- `http_request` over an environment assigning each attempt its network
outcome. -/
def http_request (env : Nat → AttemptOutcome) : HttpRun :=
  http_attempts env 0 (MAX_RETRIES + 1)

/-! ## Client response handling (`rpc_get_page`, lines 326-391) -/

/-- The fields `rpc_get_page` extracts from the JSON body of the server's
response: `json_get_string(json, "status")`, `json_get_string(json,
"page_data")` (the base64 text), and `json_get_uint64(json, "page_lsn")`;
`none` models an absent field (the extraction returning `false`). -/
structure GetPageWire where
  status : Option String
  page_data : Option (List Char)
  page_lsn : Option Nat
deriving DecidableEq, Repr

/-- What `rpc_get_page` leaves behind: the returned `dberr_t`, the bytes
written into the caller's buffer `buf` (empty when the decode was never
reached), and the value stored to `*page_lsn` (`none` when the error
paths leave it untouched). -/
structure RpcGetPageResult where
  err : dberr
  buf : List Nat
  page_lsn : Option Nat
deriving DecidableEq, Repr

/-- The response-processing tail of `rpc_get_page`, given the parsed
fields of a response `http_request` already returned `DB_SUCCESS` for:
missing or non-`success` status and missing `page_data` are `DB_ERROR`;
otherwise the base64 payload is decoded into the caller's buffer of
`page_size` bytes, a decoded length of zero or above `page_size` is
`DB_ERROR`, and on success `*page_lsn` receives the response's
`page_lsn` when present, else the request's `lsn`. -/
def rpc_get_page (wire : GetPageWire) (lsn : Nat) (page_size : Nat) :
    RpcGetPageResult :=
  match wire.status with
  | none => { err := .DB_ERROR, buf := [], page_lsn := none }
  | some st =>
    if st = "success" then
      match wire.page_data with
      | none => { err := .DB_ERROR, buf := [], page_lsn := none }
      | some b64 =>
        let buf := base64_decode b64 page_size
        if buf.length = 0 ∨ page_size < buf.length then
          { err := .DB_ERROR, buf := buf, page_lsn := none }
        else
          match wire.page_lsn with
          | some resp_lsn => { err := .DB_SUCCESS, buf := buf, page_lsn := some resp_lsn }
          | none => { err := .DB_SUCCESS, buf := buf, page_lsn := some lsn }
    else
      { err := .DB_ERROR, buf := [], page_lsn := none }

/-! ## Client lifecycle (`PageServerClient`, lines 419-539) -/

/-- The client's global state: `page_server_enabled`,
`page_server_initialized` (field `inited` here), and the stored server
address (`none` models the null pointer). -/
structure ClientState where
  enabled : Bool
  inited : Bool
  address : Option String
deriving DecidableEq, Repr

namespace PageServerClient

/-- `PageServerClient::is_enabled()`: both atomics must be set. -/
def is_enabled (s : ClientState) : Bool := s.enabled && s.inited

/-- `PageServerClient::init(address)` with `pingOK` the outcome of the
startup `ping()` (whether `http_request` for `/api/v1/ping` succeeds):
a null or empty address leaves the client disabled and returns `true`
("Disabled is valid"); otherwise the address is stored and parsed, the
client marked enabled, and the ping issued — on ping failure the client
is disabled again, the stored address freed, and `false` returned. -/
def init (address : Option String) (pingOK : Bool) : Bool × ClientState :=
  match address with
  | none => (true, { enabled := false, inited := true, address := none })
  | some a =>
    if a.length = 0 then
      (true, { enabled := false, inited := true, address := none })
    else if pingOK then
      (true, { enabled := true, inited := true, address := some a })
    else
      (false, { enabled := false, inited := true, address := none })

/-- `PageServerClient::stream_wal(lsn, wal_data, wal_len)`: a disabled
client returns `DB_SUCCESS` at once ("Silently ignore if disabled"); an
enabled one takes the mutex and returns the `dberr_t` of
`rpc_stream_wal`, which is exactly the result of its `http_request`
(the result does not depend on the environment when disabled — no I/O
is attempted). -/
def stream_wal (s : ClientState) (env : Nat → AttemptOutcome) : dberr :=
  if is_enabled s then (http_request env).result else .DB_SUCCESS

/-- `PageServerClient::get_page(...)`: a disabled client returns
`DB_ERROR` at once; an enabled one runs `rpc_get_page`, whose network
phase is abstracted by `net`: `none` when `http_request` failed,
`some wire` the parsed response fields when it succeeded. -/
def get_page (s : ClientState) (net : Option GetPageWire)
    (lsn : Nat) (page_size : Nat) : RpcGetPageResult :=
  if is_enabled s then
    match net with
    | none => { err := .DB_ERROR, buf := [], page_lsn := none }
    | some wire => rpc_get_page wire lsn page_size
  else
    { err := .DB_ERROR, buf := [], page_lsn := none }

end PageServerClient

/-! ## Helper lemmas -/

/-- One unfolding step of the retry loop. -/
theorem http_attempts_step (env : Nat → AttemptOutcome) (retry fuel : Nat) :
    http_attempts env retry (fuel + 1) =
      if attemptSucceeds (env retry) then
        { result := .DB_SUCCESS, attempts := 1, delays := [] }
      else if retry < MAX_RETRIES then
        { result := (http_attempts env (retry + 1) fuel).result,
          attempts := (http_attempts env (retry + 1) fuel).attempts + 1,
          delays := backoff_delay retry :: (http_attempts env (retry + 1) fuel).delays }
      else { result := .DB_ERROR, attempts := 1, delays := [] } := rfl

/-- Full characterization of `http_request` by the outcomes of its at most
`MAX_RETRIES + 1` attempts. -/
theorem http_request_cases (env : Nat → AttemptOutcome) :
    http_request env =
      if attemptSucceeds (env 0) then
        { result := .DB_SUCCESS, attempts := 1, delays := [] }
      else if attemptSucceeds (env 1) then
        { result := .DB_SUCCESS, attempts := 2, delays := [backoff_delay 0] }
      else if attemptSucceeds (env 2) then
        { result := .DB_SUCCESS, attempts := 3, delays := [backoff_delay 0, backoff_delay 1] }
      else
        { result := .DB_ERROR, attempts := 3, delays := [backoff_delay 0, backoff_delay 1] } := by
  cases h0 : attemptSucceeds (env 0) <;> cases h1 : attemptSucceeds (env 1) <;>
    cases h2 : attemptSucceeds (env 2) <;>
    simp [http_request, http_attempts, MAX_RETRIES, h0, h1, h2]

/-! ## Claim theorems -/

/-- C1: the `page_lsn` returned by `handleGetPage` is an echo of the
caller-supplied requested LSN, not the LSN of the stored version: the same
stored page, requested at LSNs 999 and 5, is reported with `page_lsn` 999
and 5 respectively. This refutes the claim that the returned `page_lsn` is
the LSN of the version actually returned. -/
theorem getPage_pageLSN_echoes_request :
    (handleGetPage { pages := [((1, 42), [7])], walRecords := [] }
      { spaceId := 1, pageNo := 42, lsn := 999 }).1.status = "success" ∧
    (handleGetPage { pages := [((1, 42), [7])], walRecords := [] }
      { spaceId := 1, pageNo := 42, lsn := 999 }).1.pageLSN = 999 ∧
    (handleGetPage { pages := [((1, 42), [7])], walRecords := [] }
      { spaceId := 1, pageNo := 42, lsn := 5 }).1.pageLSN = 5 := by
  decide

/-- C2: the server keeps a single unversioned image per key and
`handleGetPage` ignores the requested LSN entirely: a stored page is
returned with `success` even for requested LSN 0, below any LSN at which a
version could have been stored, instead of `NotFound`; the zero-versions
half of the claim does hold (an absent key answers status `error`,
never a zero-filled success). -/
theorem getPage_ignores_requested_lsn :
    (handleGetPage { pages := [((1, 42), [7])], walRecords := [] }
      { spaceId := 1, pageNo := 42, lsn := 0 }).1.status = "success" ∧
    (handleGetPage { pages := [((1, 42), [7])], walRecords := [] }
      { spaceId := 1, pageNo := 42, lsn := 0 }).1.pageData = [7] ∧
    (handleGetPage { pages := [], walRecords := [] }
      { spaceId := 1, pageNo := 42, lsn := 0 }).1.status = "error" ∧
    (handleGetPage { pages := [], walRecords := [] }
      { spaceId := 1, pageNo := 42, lsn := 0 }).1.pageData = [] := by
  decide

/-- C3: the `last_applied_lsn` in a `handleStreamWAL` acknowledgment is an
echo of the request's LSN, not a truthful applied watermark: from the
empty server, streaming LSN 10 then LSN 5 reports watermarks 10 then 5 (a
decrease), while the page store stays empty — no record is ever applied,
so the reported value exceeds every actually-applied LSN. -/
theorem streamWAL_ack_echoes_without_apply :
    (handleStreamWAL { pages := [], walRecords := [] }
      { lsn := 10, walData := [1], spaceId := 1, pageNo := 42 }).1.lastAppliedLSN = 10 ∧
    (handleStreamWAL
      (handleStreamWAL { pages := [], walRecords := [] }
        { lsn := 10, walData := [1], spaceId := 1, pageNo := 42 }).2
      { lsn := 5, walData := [2], spaceId := 1, pageNo := 42 }).1.lastAppliedLSN = 5 ∧
    (handleStreamWAL
      (handleStreamWAL { pages := [], walRecords := [] }
        { lsn := 10, walData := [1], spaceId := 1, pageNo := 42 }).2
      { lsn := 5, walData := [2], spaceId := 1, pageNo := 42 }).2.pages = [] := by
  decide

/-- C4: processing the identical WAL record twice is not idempotent: the
duplicate is appended to the stored WAL record list a second time, so the
state after two deliveries differs from the state after one (and both are
acknowledged with `success`, so the duplicate is not treated as an error
either — but it is stored, not discarded). -/
theorem streamWAL_duplicate_appended_twice :
    (handleStreamWAL
      (handleStreamWAL { pages := [], walRecords := [] }
        { lsn := 5, walData := [9], spaceId := 1, pageNo := 42 }).2
      { lsn := 5, walData := [9], spaceId := 1, pageNo := 42 }).2 ≠
    (handleStreamWAL { pages := [], walRecords := [] }
      { lsn := 5, walData := [9], spaceId := 1, pageNo := 42 }).2 ∧
    (handleStreamWAL
      (handleStreamWAL { pages := [], walRecords := [] }
        { lsn := 5, walData := [9], spaceId := 1, pageNo := 42 }).2
      { lsn := 5, walData := [9], spaceId := 1, pageNo := 42 }).2.walRecords.length = 2 := by
  decide

/-- C5 counterexample: with the client enabled and every connection
attempt failing (service unreachable), `stream_wal` does not return
`DB_SUCCESS` — it returns `DB_ERROR`, refuting the claim that such a call
yields a degraded success outcome. -/
theorem stream_wal_unreachable_not_success :
    ¬ (PageServerClient.stream_wal
        { enabled := true, inited := true, address := some "localhost:8080" }
        (fun _ => AttemptOutcome.connectFail) = dberr.DB_SUCCESS) := by
  decide

/-- C5 amended: `stream_wal` returns `DB_SUCCESS` without network traffic
when the client is disabled (as it is after startup against an unreachable
service); when the client is enabled and every attempt fails, it returns
`DB_ERROR` after at most `MAX_RETRIES + 1` bounded attempts rather than
blocking indefinitely. -/
theorem stream_wal_degraded_or_bounded_failure
    (s : ClientState) (env : Nat → AttemptOutcome) :
    (PageServerClient.is_enabled s = false →
      PageServerClient.stream_wal s env = dberr.DB_SUCCESS) ∧
    (PageServerClient.is_enabled s = true →
      (∀ r, attemptSucceeds (env r) = false) →
      PageServerClient.stream_wal s env = dberr.DB_ERROR ∧
      (http_request env).attempts ≤ MAX_RETRIES + 1) := by
  constructor
  · intro h
    simp [PageServerClient.stream_wal, h]
  · intro h hall
    constructor
    · simp [PageServerClient.stream_wal, h, http_request_cases env,
        hall 0, hall 1, hall 2]
    · rw [http_request_cases env]
      simp [hall 0, hall 1, hall 2, MAX_RETRIES]

/-- C5 amended witness: a concrete enabled client with an all-fail
environment, discharging the hypotheses of the amended theorem. -/
theorem stream_wal_degraded_witness :
    PageServerClient.stream_wal
      { enabled := true, inited := true, address := some "localhost:8080" }
      (fun _ => AttemptOutcome.connectFail) = dberr.DB_ERROR :=
  ((stream_wal_degraded_or_bounded_failure
      { enabled := true, inited := true, address := some "localhost:8080" }
      (fun _ => AttemptOutcome.connectFail)).2 (by decide) (fun _ => rfl)).1

/-- C6: the client's base64 round trip loses data: encoding the single
byte 65 yields the four characters `QQ==`, but `base64_decode` skips its
group-flush check on `=` characters (the `continue` in the padding branch
runs before the `(i + 1) % 4 == 0` test), so the final padded group is
dropped and decoding returns no bytes at all — the round trip fails for
every input length not divisible by 3, including the 16384-byte page
size. -/
theorem base64_roundtrip_fails_single_byte :
    base64_decode (base64_encode [65]) 16384 = [] ∧
    base64_decode (base64_encode [65]) 16384 ≠ [65] := by
  decide

/-- C7 counterexample: `init` with a nonempty address whose startup ping
fails returns `false`, refuting the claim that it still reports successful
startup (`true`). -/
theorem init_ping_failure_not_true :
    ¬ ((PageServerClient.init (some "localhost:8080") false).1 = true) := by
  decide

/-- C7 amended: when the startup ping fails for a nonempty address, `init`
disables the client and returns `false`; afterwards `is_enabled` is
`false` and subsequent calls short-circuit without attempting I/O —
`stream_wal` returns `DB_SUCCESS` and `get_page` returns `DB_ERROR`
whatever the network environment holds. -/
theorem init_ping_failure_disables_and_shortcircuits
    (a : String) (h : a.length ≠ 0) :
    (PageServerClient.init (some a) false).1 = false ∧
    PageServerClient.is_enabled (PageServerClient.init (some a) false).2 = false ∧
    (∀ env, PageServerClient.stream_wal
      (PageServerClient.init (some a) false).2 env = dberr.DB_SUCCESS) ∧
    (∀ net lsn page_size, (PageServerClient.get_page
      (PageServerClient.init (some a) false).2 net lsn page_size).err = dberr.DB_ERROR) := by
  simp [PageServerClient.init, h, PageServerClient.is_enabled,
    PageServerClient.stream_wal, PageServerClient.get_page]

/-- C7 amended witness: concrete nonempty address with a failing ping. -/
theorem init_disable_witness :
    "localhost:8080".length ≠ 0 ∧
    (PageServerClient.init (some "localhost:8080") false).1 = false :=
  ⟨by decide,
   (init_ping_failure_disables_and_shortcircuits "localhost:8080" (by decide)).1⟩

/-- C8: every `http_request` call makes at most `MAX_RETRIES + 1` network
attempts, the backoff delay slept before retry `r + 1` is twice the delay
before retry `r` (the delays are `backoff_delay 0, backoff_delay 1, ...`),
and once every attempt in the budget fails the call returns `DB_ERROR` —
the loop never retries forever. -/
theorem http_request_bounded_retries (env : Nat → AttemptOutcome) :
    (http_request env).attempts ≤ MAX_RETRIES + 1 ∧
    (http_request env).delays =
      List.map backoff_delay (List.range ((http_request env).attempts - 1)) ∧
    (∀ r, backoff_delay (r + 1) = 2 * backoff_delay r) ∧
    ((∀ r, attemptSucceeds (env r) = false) →
      (http_request env).result = dberr.DB_ERROR) := by
  refine ⟨?_, ?_, ?_, ?_⟩
  · rw [http_request_cases env]
    cases h0 : attemptSucceeds (env 0) <;> cases h1 : attemptSucceeds (env 1) <;>
      cases h2 : attemptSucceeds (env 2) <;> simp [h0, h1, h2, MAX_RETRIES]
  · rw [http_request_cases env]
    cases h0 : attemptSucceeds (env 0) <;> cases h1 : attemptSucceeds (env 1) <;>
      cases h2 : attemptSucceeds (env 2) <;>
      simp [h0, h1, h2, List.range_succ]
  · intro r
    simp [backoff_delay, pow_succ]
    ring
  · intro hall
    rw [http_request_cases env]
    simp [hall 0, hall 1, hall 2]

/-- C8 witness: the all-connect-fail environment exhausts the budget and
returns `DB_ERROR`. -/
theorem http_request_bounded_retries_witness :
    (http_request (fun _ => AttemptOutcome.connectFail)).result = dberr.DB_ERROR :=
  (http_request_bounded_retries (fun _ => AttemptOutcome.connectFail)).2.2.2
    (fun _ => rfl)

/-- C9: handling a `GetPage` request never mutates the server: the page
map and the WAL record list after `handleGetPage` are the state it was
given, whether the lookup succeeds or fails. -/
theorem handleGetPage_preserves_state (s : PageServer) (req : GetPageRequest) :
    (handleGetPage s req).2 = s := by
  unfold handleGetPage
  cases lookupPage s.pages (req.spaceId, req.pageNo) <;> rfl

/-- C10: when the server's response has status `success` but the decoded
page payload is empty or longer than the caller's `page_size`,
`rpc_get_page` returns `DB_ERROR`, never a successful read. -/
theorem rpc_get_page_rejects_empty_or_oversized
    (pd : List Char) (pl : Option Nat) (lsn page_size : Nat)
    (h : (base64_decode pd page_size).length = 0 ∨
      page_size < (base64_decode pd page_size).length) :
    (rpc_get_page { status := some "success", page_data := some pd, page_lsn := pl }
      lsn page_size).err = dberr.DB_ERROR := by
  rcases h with h | h <;> simp [rpc_get_page, h]

/-- C10 witness: a `success` response whose `page_data` decodes to zero
bytes is rejected. -/
theorem rpc_get_page_rejects_witness :
    ((base64_decode [] 16384).length = 0 ∨
      16384 < (base64_decode [] 16384).length) ∧
    (rpc_get_page { status := some "success", page_data := some [], page_lsn := some 3 }
      9 16384).err = dberr.DB_ERROR :=
  ⟨Or.inl (by decide),
   rpc_get_page_rejects_empty_or_oversized [] (some 3) 9 16384 (Or.inl (by decide))⟩
